import Mathlib

/- Formal model of the magpie MQTT cron program (petspalace/magpie).

The program consists of four producer loops (weather, daylight, season,
day phase) feeding a channel of MqttCronMessage values consumed by
MessageLoop, which publishes each message under a configured topic prefix.
Every producer tick is a pure computation from the current UTC time (and,
for weather and daylight, from data fetched over HTTP) to a list of
messages; those tick bodies and the startup configuration checks are
embedded below as Lean functions, translated clause by clause from the Go
source (src/magpie.go, src/mqtt.go, src/season.go, src/unnamed/part_000,
src/unnamed/part_001). -/

namespace Magpie

/-- Message passed along between the producer loops and MessageLoop through a
channel: struct MqttCronMessage (src/magpie.go lines 73-77, src/mqtt.go
lines 5-9). -/
structure MqttCronMessage where
  Topic : String
  Payload : String
  Retain : Bool
  deriving Repr, DecidableEq

/-- Station name and region parsed from the buienradar.nl XML feed: struct
WeatherAPIStationData (src/magpie.go lines 79-82). -/
structure WeatherAPIStationData where
  Region : String
  Name : String
  deriving Repr, DecidableEq

/-- Per-station weather readings parsed from the buienradar.nl XML feed:
struct WeatherAPIData (src/magpie.go lines 84-97). All readings are
numeric-as-string; the feed uses the sentinel "-" for an absent value. -/
structure WeatherAPIData where
  Code : String
  Station : WeatherAPIStationData
  Lat : String
  Lon : String
  Humidity : String
  TemperatureGround : String
  Temperature10cm : String
  WindSpeed : String
  GustSpeed : String
  AirPressure : String
  SightRange : String
  Rain : String
  deriving Repr, DecidableEq

/-- WeatherAPINormalizeValue (src/magpie.go lines 139-145): the feed returns
"-" when a value is not available; it is converted to the empty string and
checked later when queueing messages. -/
def WeatherAPINormalizeValue (value : String) : String :=
  if value = "-" then "" else value

/-- strings.ToLower restricted to its effect on basic-latin input:
Char.toLower performs exactly the A-Z to a-z mapping that Go's
strings.ToLower performs on ASCII characters (src/magpie.go line 192). -/
def goToLower (s : String) : String :=
  String.mk (s.data.map Char.toLower)

/-- strings.Replace(s, " ", "-", -1) (src/magpie.go line 192): the pattern is
the single ASCII byte " ", which cannot occur inside a multi-byte UTF-8
sequence, so the replacement is a per-character map. -/
def goReplaceSpaceDash (s : String) : String :=
  String.mk (s.data.map (fun c => if c = ' ' then '-' else c))

/-- regionName computation in WeatherLoop (src/magpie.go line 192):
strings.Replace(strings.ToLower(location.Station.Region), " ", "-", -1). -/
def normalizeRegion (s : String) : String :=
  goReplaceSpaceDash (goToLower s)

/-- One of the eight if-blocks in WeatherLoop (src/magpie.go lines 198-236).
Each block appends, under the condition that the normalized raw value is
non-empty, one topic "topicFromEnv/sub" to tpcs and the raw value to msgs;
since the two slices grow in lockstep under identical conditions they are
embedded as a single list of (topic, payload) pairs. Go's len() counts
bytes while String.length counts characters; both are positive exactly when
the string is non-empty. -/
def weatherFieldEntry (topicFromEnv sub raw : String) : List (String × String) :=
  if 0 < (WeatherAPINormalizeValue raw).length then
    [(topicFromEnv ++ "/" ++ sub, raw)]
  else
    []

/-- The eight field blocks of WeatherLoop in source order (src/magpie.go
lines 198-236): humidity, temperature.ground, temperature.10cm, wind, gust,
pressure, rain, sight. -/
def weatherStationPairs (topicFromEnv : String) (location : WeatherAPIData) :
    List (String × String) :=
  weatherFieldEntry topicFromEnv "humidity" location.Humidity
    ++ weatherFieldEntry topicFromEnv "temperature.ground" location.TemperatureGround
    ++ weatherFieldEntry topicFromEnv "temperature.10cm" location.Temperature10cm
    ++ weatherFieldEntry topicFromEnv "wind" location.WindSpeed
    ++ weatherFieldEntry topicFromEnv "gust" location.GustSpeed
    ++ weatherFieldEntry topicFromEnv "pressure" location.AirPressure
    ++ weatherFieldEntry topicFromEnv "rain" location.Rain
    ++ weatherFieldEntry topicFromEnv "sight" location.SightRange

/-- Messages sent to the channel for one station in one WeatherLoop tick
(src/magpie.go lines 188-241): stations whose normalized region differs
from WEATHER_REGION are skipped (continue); for the matching station the
zip loop at lines 238-240 emits one message per collected pair with
Retain false. -/
def weatherStationMessages (topicFromEnv regionFromEnv : String)
    (location : WeatherAPIData) : List MqttCronMessage :=
  if normalizeRegion location.Station.Region ≠ regionFromEnv then
    []
  else
    (weatherStationPairs topicFromEnv location).map
      (fun p => { Retain := false, Topic := p.1, Payload := p.2 })

/-- Result of a producer loop's startup configuration check: the loop either
logs and returns (source disabled), terminates the whole process
(logger.Fatalln / Fatalf), or enters its infinite loop. -/
inductive StartOutcome where
  | disabled
  | fatal
  | running
  deriving Repr, DecidableEq

/-- Startup checks of WeatherLoop (src/magpie.go lines 173-185): a missing
WEATHER_TOPIC logs "disabled" and returns; a missing WEATHER_REGION also
logs "disabled" and returns; otherwise the loop body runs. -/
def weatherLoopStart (topicEnv regionEnv : Option String) : StartOutcome :=
  match topicEnv with
  | none => StartOutcome.disabled
  | some _ =>
    match regionEnv with
    | none => StartOutcome.disabled
    | some _ => StartOutcome.running

/-- Startup checks of DayLightLoop (src/magpie.go lines 276-305, identically
src/unnamed/part_001 lines 63-92): a missing DAYLIGHT_TOPIC logs "disabled"
and returns; a missing DAYLIGHT_LATITUDE or DAYLIGHT_LONGITUDE calls
Fatalln; an unparsable latitude or longitude calls Fatalf; otherwise the
loop body runs. strconv.ParseFloat is Go standard-library code and is
abstracted as a success predicate on the raw string. -/
def dayLightLoopStart (parseFloatOk : String → Bool)
    (topicEnv latEnv lonEnv : Option String) : StartOutcome :=
  match topicEnv with
  | none => StartOutcome.disabled
  | some _ =>
    match latEnv, lonEnv with
    | some lat, some lon =>
      if parseFloatOk lat then
        if parseFloatOk lon then StartOutcome.running
        else StartOutcome.fatal
      else StartOutcome.fatal
    | _, _ => StartOutcome.fatal

/-- The isDayTime computation of one DayLightLoop tick (src/magpie.go lines
310-317, identically src/unnamed/part_001 lines 97-104). UTC instants are
modelled as integers on a common timeline; time.Time.Before is strict <
and time.Time.After is strict >. -/
def dayLightPayload (now sunrise sunset : Int) : String :=
  if now < sunrise ∨ sunset < now then "no" else "yes"

/-- The message sent by one DayLightLoop tick (src/magpie.go line 319). -/
def dayLightTick (topicFromEnv : String) (now sunrise sunset : Int) :
    MqttCronMessage :=
  { Retain := true, Topic := topicFromEnv,
    Payload := dayLightPayload now sunrise sunset }

/-- The season computation of one SeasonLoop tick (src/magpie.go lines
338-351, identically src/season.go lines 23-36). Go's time.Month is 1-12,
January = 1. -/
def seasonString (month : Nat) : String :=
  if month < 3 then "winter"
  else if month < 6 then "spring"
  else if month < 9 then "summer"
  else if month < 12 then "fall"
  else "winter"

/-- The message sent by one SeasonLoop tick (src/magpie.go line 353,
src/season.go line 38). -/
def seasonTick (topicFromEnv : String) (month : Nat) : MqttCronMessage :=
  { Retain := true, Topic := topicFromEnv, Payload := seasonString month }

/-- The dayphase computation of one DayPhaseLoop tick (src/magpie.go lines
372-383), translated exactly as written: the third branch compares
now.Month() - not now.Hour() - against 18. Hours are 0-23, months 1-12. -/
def dayPhaseString (hour month : Nat) : String :=
  if hour < 6 then "night"
  else if hour < 12 then "morning"
  else if month < 18 then "afternoon"
  else "evening"

/-- The message sent by one DayPhaseLoop tick (src/magpie.go line 385):
fmt.Sprintf("dayphase value=%s", dayphase), Retain true. -/
def dayPhaseTick (topicFromEnv : String) (hour month : Nat) : MqttCronMessage :=
  { Retain := true, Topic := topicFromEnv,
    Payload := "dayphase value=" ++ dayPhaseString hour month }

/-- Topic construction in MessageLoop (src/magpie.go line 127, identically
src/unnamed/part_000 line 70): fmt.Sprintf("%s/%s", pfx, m.Topic). -/
def messagePublishTopic (pfx : String) (m : MqttCronMessage) : String :=
  pfx ++ "/" ++ m.Topic

/-- MQTT_PREFIX handling in main (src/magpie.go lines 400-407, identically
src/unnamed/part_000 lines 90-97): when the variable is absent the prefix
defaults to "/home.arpa". -/
def effectivePfx (pfxEnv : Option String) : String :=
  match pfxEnv with
  | none => "/home.arpa"
  | some p => p

/-- Identifier for one of the eight weather fields, used to state order
properties of WeatherLoop's output. -/
inductive WeatherField where
  | humidity
  | temperatureGround
  | temperature10cm
  | wind
  | gust
  | pressure
  | rain
  | sight
  deriving Repr, DecidableEq

/-- The sub-topic string WeatherLoop appends for each field (src/magpie.go
lines 199-234). -/
def WeatherField.sub : WeatherField → String
  | .humidity => "humidity"
  | .temperatureGround => "temperature.ground"
  | .temperature10cm => "temperature.10cm"
  | .wind => "wind"
  | .gust => "gust"
  | .pressure => "pressure"
  | .rain => "rain"
  | .sight => "sight"

/-- The raw station value each field block reads (src/magpie.go lines
198-233). -/
def WeatherField.raw (location : WeatherAPIData) : WeatherField → String
  | .humidity => location.Humidity
  | .temperatureGround => location.TemperatureGround
  | .temperature10cm => location.Temperature10cm
  | .wind => location.WindSpeed
  | .gust => location.GustSpeed
  | .pressure => location.AirPressure
  | .rain => location.Rain
  | .sight => location.SightRange

/-- The fixed field order of the spec's weather table: humidity,
temperature.ground, temperature.10cm, wind, gust, pressure, rain, sight. -/
def weatherFieldOrder : List WeatherField :=
  [.humidity, .temperatureGround, .temperature10cm, .wind,
   .gust, .pressure, .rain, .sight]

/-- Spec-side description of one weather tick's output for the matched
station, written from the spec's words: one message per present field
(normalized value non-empty), in the fixed field order, each under
topic "WEATHER_TOPIC/sub-topic" with retain flag false and the raw value
as payload. To be compared with weatherStationMessages. -/
def specWeatherStationMessages (topicFromEnv : String)
    (location : WeatherAPIData) : List MqttCronMessage :=
  (weatherFieldOrder.filter
      (fun f => decide (0 < (WeatherAPINormalizeValue (f.raw location)).length))).map
    (fun f => { Retain := false, Topic := topicFromEnv ++ "/" ++ f.sub,
                Payload := f.raw location })

/-- A concrete station in region "Amsterdam" whose humidity reads "0" and
whose seven other fields carry the absent sentinel "-". -/
def sampleStationDashZero : WeatherAPIData :=
  { Code := "6260"
    Station := { Region := "Amsterdam", Name := "Meetstation Amsterdam" }
    Lat := "52.3"
    Lon := "4.76"
    Humidity := "0"
    TemperatureGround := "-"
    Temperature10cm := "-"
    WindSpeed := "-"
    GustSpeed := "-"
    AirPressure := "-"
    SightRange := "-"
    Rain := "-" }

/-- A concrete station in region "Amsterdam" all of whose field elements are
missing from the feed, so every raw value is the empty string. -/
def sampleStationAllEmpty : WeatherAPIData :=
  { Code := "6260"
    Station := { Region := "Amsterdam", Name := "Meetstation Amsterdam" }
    Lat := "52.3"
    Lon := "4.76"
    Humidity := ""
    TemperatureGround := ""
    Temperature10cm := ""
    WindSpeed := ""
    GustSpeed := ""
    AirPressure := ""
    SightRange := ""
    Rain := "" }

/-- Characterization of Char.isUpper through the codepoint. -/
theorem char_isUpper_iff (c : Char) :
    c.isUpper = true ↔ 65 ≤ c.toNat ∧ c.toNat ≤ 90 := by
  simp [Char.isUpper, UInt32.le_def, BitVec.le_def, Char.toNat, UInt32.toNat]

/-- Char.ofNat round-trips through toNat on valid codepoints below the
surrogate range. -/
theorem char_toNat_ofNat_valid {n : Nat} (h : n < 55296) :
    (Char.ofNat n).toNat = n := by
  rw [Char.ofNat, dif_pos (Or.inl h)]
  simp [Char.ofNatAux, Char.toNat, UInt32.toNat]

/-- Char.toLower never returns a basic-latin upper-case letter. -/
theorem toLower_isUpper_eq_false (c : Char) : (Char.toLower c).isUpper = false := by
  rw [Char.toLower]
  split
  · next h =>
    have hv : (Char.ofNat (c.toNat + 32)).toNat = c.toNat + 32 :=
      char_toNat_ofNat_valid (by omega)
    rw [← Bool.not_eq_true, char_isUpper_iff, hv]
    omega
  · next h =>
    rw [← Bool.not_eq_true, char_isUpper_iff]
    omega

/-- Every character of a normalized region name is neither a basic-latin
upper-case letter nor a space. -/
theorem mem_normalizeRegion_not_upper_space (s : String) (c : Char)
    (hc : c ∈ (normalizeRegion s).data) : c.isUpper = false ∧ c ≠ ' ' := by
  simp only [normalizeRegion, goReplaceSpaceDash, goToLower, List.map_map] at hc
  rcases List.mem_map.mp hc with ⟨a, _, ha⟩
  simp only [Function.comp] at ha
  by_cases hsp : Char.toLower a = ' '
  · rw [if_pos hsp] at ha
    rw [← ha]
    exact ⟨by decide, by decide⟩
  · rw [if_neg hsp] at ha
    rw [← ha]
    exact ⟨toLower_isUpper_eq_false a, hsp⟩

/-- The eight field blocks of WeatherLoop are the blocks for the fields of
weatherFieldOrder, concatenated in that order. -/
theorem weatherStationPairs_eq_flatten (topicFromEnv : String)
    (location : WeatherAPIData) :
    weatherStationPairs topicFromEnv location =
      (weatherFieldOrder.map
        (fun f => weatherFieldEntry topicFromEnv f.sub (f.raw location))).flatten := by
  simp only [weatherFieldOrder, List.map_cons, List.map_nil, List.flatten_cons,
    List.flatten_nil, List.append_nil, WeatherField.sub, WeatherField.raw,
    weatherStationPairs, List.append_assoc]

/-- Mapping the message constructor over the concatenated field blocks yields
one message per present field, in block order. -/
theorem flatten_fieldEntry_eq_filter (topicFromEnv : String)
    (location : WeatherAPIData) (l : List WeatherField) :
    ((l.map (fun f => weatherFieldEntry topicFromEnv f.sub (f.raw location))).flatten).map
        (fun p => ({ Retain := false, Topic := p.1, Payload := p.2 } : MqttCronMessage)) =
      (l.filter
          (fun f => decide (0 < (WeatherAPINormalizeValue (f.raw location)).length))).map
        (fun f => { Retain := false, Topic := topicFromEnv ++ "/" ++ f.sub,
                    Payload := f.raw location }) := by
  induction l with
  | nil => rfl
  | cons f rest ih =>
    simp only [List.map_cons, List.flatten_cons, List.map_append, ih, List.filter_cons]
    by_cases h : 0 < (WeatherAPINormalizeValue (f.raw location)).length
    · simp [weatherFieldEntry, h]
    · simp [weatherFieldEntry, h]

/-- Claim C1 (counterexample): at 12:00 UTC in June the day-phase producer
computes "afternoon", not "evening", refuting the claim that every time
between 12:00 and 23:59 reports "evening" and "afternoon" is never
reported. -/
theorem dayphase_noon_reports_afternoon :
    dayPhaseString 12 6 = "afternoon" ∧ dayPhaseString 12 6 ≠ "evening" :=
  ⟨rfl, by decide⟩

/-- Claim C1 (amended): in the source as written, the day-phase producer
reports "afternoon" for every time between 12:00 and 23:59 UTC every day
(months being 1-12, the comparison of the month against 18 always
succeeds), and never reports "evening". -/
theorem dayphase_always_afternoon_never_evening (hour month : Nat)
    (hm1 : 1 ≤ month) (hm2 : month ≤ 12) (hh : hour ≤ 23) :
    (12 ≤ hour → dayPhaseString hour month = "afternoon") ∧
      dayPhaseString hour month ≠ "evening" := by
  unfold dayPhaseString
  constructor
  · intro h12
    rw [if_neg (by omega), if_neg (by omega), if_pos (by omega)]
  · split_ifs with h1 h2 h3
    · decide
    · decide
    · decide
    · omega

/-- Claim C1 (witness): at 14:00 UTC in July the producer computes
"afternoon" and not "evening". -/
theorem dayphase_always_afternoon_never_evening_witness :
    dayPhaseString 14 7 = "afternoon" ∧ dayPhaseString 14 7 ≠ "evening" :=
  ⟨(dayphase_always_afternoon_never_evening 14 7 (by decide) (by decide)
      (by decide)).1 (by decide),
   (dayphase_always_afternoon_never_evening 14 7 (by decide) (by decide)
      (by decide)).2⟩

/-- Claim C2 (code bug, evaluated at the failing input): at 18:00 UTC in June
the code publishes the retained payload "dayphase value=afternoon", while
the claimed rule (hours 18-23 map to evening) requires
"dayphase value=evening"; the source's third branch tests now.Month() < 18
where the intended rule needs now.Hour() < 18. -/
theorem dayphase_hour18_code_reports_afternoon :
    dayPhaseTick "cron/dayphase" 18 6 =
      { Retain := true, Topic := "cron/dayphase",
        Payload := "dayphase value=afternoon" } := by
  decide

/-- Claim C3 (code bug, evaluated at the failing input): with WEATHER_TOPIC
present and WEATHER_REGION absent, WeatherLoop logs and disables itself
instead of terminating the process, while DayLightLoop does terminate
fatally on a missing or unparsable coordinate. -/
theorem weather_missing_region_disables_not_fatal :
    weatherLoopStart (some "cron/weather") none = StartOutcome.disabled ∧
    StartOutcome.disabled ≠ StartOutcome.fatal ∧
    dayLightLoopStart (fun _ => true) (some "cron/daylight") none
      (some "5.29") = StartOutcome.fatal ∧
    dayLightLoopStart (fun _ => false) (some "cron/daylight")
      (some "not-a-float") (some "5.29") = StartOutcome.fatal :=
  ⟨rfl, by decide, rfl, rfl⟩

/-- Claim C4: the daylight payload is "yes" exactly when the current UTC
instant is neither before sunrise nor after sunset (boundary instants
included), otherwise "no", with retain flag true; in particular, with
sunrise 08:00Z and sunset 18:00Z (minutes of day 480 and 1080), 07:59Z
gives "no", 08:00Z gives "yes", 18:00Z gives "yes" and 18:01Z gives
"no". -/
theorem daylight_yes_iff_between_sunrise_sunset :
    (∀ (t : String) (now sunrise sunset : Int),
      ((dayLightTick t now sunrise sunset).Payload = "yes" ↔
        sunrise ≤ now ∧ now ≤ sunset) ∧
      ((dayLightTick t now sunrise sunset).Payload = "no" ↔
        ¬(sunrise ≤ now ∧ now ≤ sunset)) ∧
      (dayLightTick t now sunrise sunset).Retain = true) ∧
    dayLightPayload 479 480 1080 = "no" ∧
    dayLightPayload 480 480 1080 = "yes" ∧
    dayLightPayload 1080 480 1080 = "yes" ∧
    dayLightPayload 1081 480 1080 = "no" := by
  refine ⟨fun t now a b => ⟨?_, ?_, rfl⟩, by decide, by decide, by decide, by decide⟩
  · show dayLightPayload now a b = "yes" ↔ _
    unfold dayLightPayload
    by_cases h : now < a ∨ b < now
    · rw [if_pos h]
      exact ⟨fun hx => absurd hx (by decide), fun hw => absurd h (by omega)⟩
    · rw [if_neg h]
      exact ⟨fun _ => by omega, fun _ => rfl⟩
  · show dayLightPayload now a b = "no" ↔ _
    unfold dayLightPayload
    by_cases h : now < a ∨ b < now
    · rw [if_pos h]
      exact ⟨fun _ => by omega, fun _ => rfl⟩
    · rw [if_neg h]
      exact ⟨fun hx => absurd hx (by decide), fun hn => (hn (by omega)).elim⟩

/-- Claim C5: a weather field whose raw value is the sentinel "-" contributes
no (topic, payload) pair, while a raw value "0" contributes exactly one
pair whose payload is "0"; evaluated on a full station whose humidity is
"0" and whose other seven fields are "-", one message with payload "0"
comes out. -/
theorem weather_sentinel_omitted_zero_published :
    (∀ topicFromEnv sub : String, weatherFieldEntry topicFromEnv sub "-" = []) ∧
    (∀ topicFromEnv sub : String,
      weatherFieldEntry topicFromEnv sub "0" =
        [(topicFromEnv ++ "/" ++ sub, "0")]) ∧
    weatherStationMessages "cron/weather" "amsterdam" sampleStationDashZero =
      [{ Retain := false, Topic := "cron/weather/humidity", Payload := "0" }] := by
  refine ⟨fun t sub => rfl, fun t sub => rfl, by decide⟩

/-- Claim C6: for every month 1-12 the season tick carries retain flag true
and payload winter for months 1, 2, 12, spring for 3-5, summer for 6-8 and
fall for 9-11. -/
theorem season_payload_by_month (topicFromEnv : String) (month : Nat)
    (h1 : 1 ≤ month) (h2 : month ≤ 12) :
    (seasonTick topicFromEnv month).Retain = true ∧
    (seasonTick topicFromEnv month).Payload =
      (if month = 1 ∨ month = 2 ∨ month = 12 then "winter"
       else if month = 3 ∨ month = 4 ∨ month = 5 then "spring"
       else if month = 6 ∨ month = 7 ∨ month = 8 then "summer"
       else "fall") := by
  refine ⟨rfl, ?_⟩
  show seasonString month = _
  unfold seasonString
  interval_cases month <;> simp

/-- Claim C6 (witness): in July the season tick is a retained "summer". -/
theorem season_payload_by_month_witness :
    (seasonTick "cron/season" 7).Retain = true ∧
    (seasonTick "cron/season" 7).Payload = "summer" := by
  have h := season_payload_by_month "cron/season" 7 (by decide) (by decide)
  exact ⟨h.1, h.2.trans (by decide)⟩

/-- Claim C7: for the matched station, one weather tick emits exactly one
message per present field, in the fixed order humidity, temperature.ground,
temperature.10cm, wind, gust, pressure, rain, sight, each under topic
"WEATHER_TOPIC/sub-topic" with the raw value as payload and retain flag
false - that is, the code-side message list equals the spec-side list. -/
theorem weather_tick_fixed_field_order (topicFromEnv regionFromEnv : String)
    (location : WeatherAPIData)
    (h : normalizeRegion location.Station.Region = regionFromEnv) :
    weatherStationMessages topicFromEnv regionFromEnv location =
      specWeatherStationMessages topicFromEnv location := by
  subst h
  unfold weatherStationMessages
  rw [if_neg (by simp)]
  rw [weatherStationPairs_eq_flatten, flatten_fieldEntry_eq_filter]
  rfl

/-- Claim C7 (witness): evaluated on the concrete matched station whose only
present field is humidity. -/
theorem weather_tick_fixed_field_order_witness :
    weatherStationMessages "cron/weather" "amsterdam" sampleStationDashZero =
      specWeatherStationMessages "cron/weather" sampleStationDashZero :=
  weather_tick_fixed_field_order "cron/weather" "amsterdam"
    sampleStationDashZero (by decide)

/-- Claim C8: the publisher publishes under the prefix, a single "/", then
the message topic; prefix "/home.arpa" with message topic "cron/season"
yields "/home.arpa/cron/season", and an absent MQTT_PREFIX defaults to
"/home.arpa". -/
theorem publish_topic_concat_and_default :
    (∀ (pfx : String) (m : MqttCronMessage),
      messagePublishTopic pfx m = pfx ++ "/" ++ m.Topic) ∧
    messagePublishTopic "/home.arpa"
      { Retain := true, Topic := "cron/season", Payload := "summer" } =
      "/home.arpa/cron/season" ∧
    effectivePfx none = "/home.arpa" ∧
    (∀ p : String, effectivePfx (some p) = p) :=
  ⟨fun _ _ => rfl, rfl, rfl, fun _ => rfl⟩

/-- Claim C9: the configured WEATHER_REGION is compared verbatim against the
normalized (lowercased, space-to-hyphen) station region, so a configured
region containing a basic-latin upper-case letter or a space matches no
station and the weather source emits zero messages. -/
theorem config_region_upper_or_space_matches_nothing (regionFromEnv : String)
    (h : ∃ c ∈ regionFromEnv.data, c.isUpper = true ∨ c = ' ')
    (topicFromEnv : String) (location : WeatherAPIData) :
    weatherStationMessages topicFromEnv regionFromEnv location = [] := by
  obtain ⟨c, hc, hcs⟩ := h
  unfold weatherStationMessages
  rw [if_pos]
  intro he
  rw [← he] at hc
  rcases mem_normalizeRegion_not_upper_space _ c hc with ⟨h1, h2⟩
  rcases hcs with h3 | h3
  · rw [h1] at h3
    exact Bool.false_ne_true h3
  · exact h2 h3

/-- Claim C9 (witness): the configured region "Noord Holland" (upper-case
letters and a space) never matches, even a station whose region normalizes
to "noord-holland"-style strings; evaluated on the concrete sample
station. -/
theorem config_region_upper_or_space_matches_nothing_witness :
    weatherStationMessages "cron/weather" "Noord Holland"
      sampleStationDashZero = [] :=
  config_region_upper_or_space_matches_nothing "Noord Holland"
    ⟨'N', by decide, Or.inl (by decide)⟩ "cron/weather" sampleStationDashZero

/-- Claim C10: a weather field whose raw value is the empty string produces
no message, exactly like the "-" sentinel: a pair is contributed precisely
when the normalized value has positive length; evaluated on a matched
station all of whose fields are empty, zero messages come out. -/
theorem weather_empty_field_omitted :
    (∀ topicFromEnv sub : String, weatherFieldEntry topicFromEnv sub "" = []) ∧
    (∀ topicFromEnv sub raw : String,
      weatherFieldEntry topicFromEnv sub raw ≠ [] ↔
        0 < (WeatherAPINormalizeValue raw).length) ∧
    weatherStationMessages "cron/weather" "amsterdam" sampleStationAllEmpty =
      [] := by
  refine ⟨fun t sub => rfl, fun t sub raw => ?_, by decide⟩
  unfold weatherFieldEntry
  by_cases h : 0 < (WeatherAPINormalizeValue raw).length
  · rw [if_pos h]
    simp [h]
  · rw [if_neg h]
    simp [h]

end Magpie
